import Mathlib

/-
Verification of the ceph-ansible `ceph_key` module (library/ceph_key.py,
module_utils/ca_common.py) against its natural-language specification.

The Python module is shallowly embedded: every pure helper becomes a Lean
function, the stateful `run_module` flow becomes a function from the module
parameters and an injected environment (filesystem predicates, command
executor, parsed command output, generated random secret) to the ordered
trace of executed external commands together with the final module exit.
Python falsiness tests (`not secret`, `not caps`) are modelled explicitly,
and a Python local variable that may be read before assignment is modelled
as an `Option`, with the unassigned read mapped to a crash outcome.
-/

/-- Capabilities dict: association list in Python dict insertion order. -/
abbrev Caps := List (String × String)

/-- Python falsiness of an optional string (`not secret`): None or empty. -/
def strFalsy : Option String → Bool
  | none => true
  | some s => s == ""

/-- Python falsiness of an optional caps dict (`not caps`): None or empty dict. -/
def capsFalsy : Option Caps → Bool
  | none => true
  | some c => c.isEmpty

/-- ASCII lower-casing of one character (model of Python str.lower on ASCII). -/
def ascii_lower_char (c : Char) : Char :=
  if 65 ≤ c.toNat ∧ c.toNat ≤ 90 then Char.ofNat (c.toNat + 32) else c

/-- ASCII lower-casing of a string. -/
def ascii_lower (s : String) : String := String.mk (s.data.map ascii_lower_char)

/-- A Python value given to str_to_bool: either a string (has .lower())
or one of the booleans (AttributeError path, converted via str()). -/
inductive PyVal where
  | str (s : String)
  | boolT
  | boolF
  deriving DecidableEq

/-- Python str() of the modelled values. -/
def py_str : PyVal → String
  | PyVal.str s => s
  | PyVal.boolT => "True"
  | PyVal.boolF => "False"

/-- The lower-cased string form computed by str_to_bool lines 210-213. -/
def py_lower (v : PyVal) : String := ascii_lower (py_str v)

/-- Embedding of ceph_key.str_to_bool (lines 209-219): ok true on lower
form "true", ok false on "false", ValueError otherwise. -/
def str_to_bool (v : PyVal) : Except String Bool :=
  let val := py_lower v
  if val = "true" then Except.ok true
  else if val = "false" then Except.ok false
  else Except.error ("Invalid input value: " ++ val)

/-- CEPH_INITIAL_KEYS (lines 205-206): the 7 well-known initial entities. -/
def CEPH_INITIAL_KEYS : List String :=
  ["client.admin", "client.bootstrap-mds", "client.bootstrap-mgr",
   "client.bootstrap-osd", "client.bootstrap-rbd", "client.bootstrap-rbd-mirror",
   "client.bootstrap-rgw"]

/-- Result of json.loads on the `ceph auth list` output: either the string
was not valid JSON, or the object lacks the auth_dump field, or it has a
list of records, each a list of string-valued fields (only the "entity"
field is ever inspected by the code). -/
inductive AuthOut where
  | badJson (e : String)
  | noAuthDump
  | dump (records : List (List (String × String)))
  deriving DecidableEq

/-- The entities list built by the nested loops of
lookup_ceph_initial_entities (lines 436-442): every value of an "entity"
field that is a member of CEPH_INITIAL_KEYS, in listing order. -/
def entities_of (records : List (List (String × String))) : List String :=
  records.foldl (fun acc record =>
    record.foldl (fun acc2 kv =>
      if kv.1 = "entity" && CEPH_INITIAL_KEYS.contains kv.2
      then acc2 ++ [kv.2] else acc2) acc) []

/-- The missing list built at lines 449-452: well-known entities absent
from the matched list, in CEPH_INITIAL_KEYS order. -/
def missing_of (entities : List String) : List String :=
  CEPH_INITIAL_KEYS.foldl
    (fun acc e => if entities.contains e then acc else acc ++ [e]) []

/-- The value os.environ.get("CEPH_ROLLING_UPDATE", False) hands to
str_to_bool: the environment string when set, else the Python False. -/
def env_pyval : Option String → PyVal
  | none => PyVal.boolF
  | some s => PyVal.str s

/-- Embedding of lookup_ceph_initial_entities (lines 425-454).  The env
argument is the CEPH_ROLLING_UPDATE environment variable.  fatal() calls
and an uncaught ValueError from str_to_bool are both error outcomes; the
Python `and` at line 446 short-circuits, so str_to_bool only runs when the
matched count differs from 7. -/
def lookup_ceph_initial_entities (env : Option String) : AuthOut → Except String (List String)
  | AuthOut.badJson e =>
      Except.error ("Could not decode \x27ceph auth list\x27 json output: " ++ e)
  | AuthOut.noAuthDump =>
      Except.error "\x27auth_dump\x27 key not present in json output:"
  | AuthOut.dump records =>
      let entities := entities_of records
      if entities.length != CEPH_INITIAL_KEYS.length then
        match str_to_bool (env_pyval env) with
        | Except.error e => Except.error e
        | Except.ok b =>
            if !b then
              Except.error ("initial keyring does not contain keys: "
                ++ String.intercalate " " (missing_of entities))
            else Except.ok entities
      else Except.ok entities

/-- Little-endian byte encoding of a natural number on `width` bytes
(model of the struct.pack fields, all values used are non-negative and in
range). -/
def le_bytes (width n : Nat) : List Nat :=
  (List.range width).map (fun i => n / 256 ^ i % 256)

/-- struct.pack("<hiih", a, b, c, d) from line 228: int16, int32, int32,
int16, all little-endian, no padding — a 12-byte header. -/
def struct_pack_hiih (a b c d : Nat) : List Nat :=
  le_bytes 2 a ++ le_bytes 4 b ++ le_bytes 4 c ++ le_bytes 2 d

/-- The base64 character for one 6-bit index. -/
def b64ch (n : Nat) : Char :=
  ("ABCDEFGHIJKLMNOPQRSTUVWXYZabcdefghijklmnopqrstuvwxyz0123456789+/").data.getD n '?'

/-- Standard base64 encoding of a byte list (model of base64.b64encode at
line 229), with "=" padding. -/
def b64encode : List Nat → List Char
  | [] => []
  | [a] => [b64ch (a / 4), b64ch (a % 4 * 16), '=', '=']
  | [a, b] => [b64ch (a / 4), b64ch (a % 4 * 16 + b / 16), b64ch (b % 16 * 4), '=']
  | a :: b :: c :: rest =>
      [b64ch (a / 4), b64ch (a % 4 * 16 + b / 16),
       b64ch (b % 16 * 4 + c / 64), b64ch (c % 64)] ++ b64encode rest

/-- Embedding of generate_secret (lines 222-231).  The wall-clock seconds
and the 16 random bytes from os.urandom are injected as arguments; the
header packs format version 1, the epoch seconds, a zero field, and the
key length. -/
def generate_secret (t : Nat) (key : List Nat) : List Char :=
  b64encode (struct_pack_hiih 1 t 0 key.length ++ key)

/-- Embedding of generate_caps (lines 234-250): fold over the caps dict in
iteration (insertion) order, skipping empty-string keys, inserting "--cap"
before each pair in ceph-authtool mode. -/
def generate_caps (t : Option String) (caps : Caps) : List String :=
  caps.foldl (fun acc kv =>
    if kv.1.length == 0 then acc
    else acc ++ (if t == some "ceph-authtool" then ["--cap"] else []) ++ [kv.1, kv.2]) []

/-- Embedding of ca_common.container_exec (called with interactive=False):
the container CLI invocation prefix.  cb is the CEPH_CONTAINER_BINARY
environment value. -/
def container_exec (cb binary cimg : String) : List String :=
  [cb, "run", "--rm", "--net=host",
   "-v", "/etc/ceph:/etc/ceph:z",
   "-v", "/var/lib/ceph/:/var/lib/ceph/:z",
   "-v", "/var/log/ceph/:/var/log/ceph/:z",
   "--entrypoint=" ++ binary, cimg]

/-- The binary-or-container-wrapper head of a generated command. -/
def ceph_bin (cb : String) (cimg : Option String) (binary : String) : List String :=
  match cimg with
  | some img => container_exec cb binary img
  | none => [binary]

/-- Embedding of ceph_key.generate_cmd (lines 253-278): the `ceph ... auth`
command line. -/
def generate_cmd (cb : String) (cimg : Option String) (cluster : String)
    (args : List String) (user ukp : String) : List String :=
  ceph_bin cb cimg "ceph"
    ++ ["-n", user, "-k", ukp, "--cluster", cluster, "auth"] ++ args

/-- Embedding of generate_ceph_authtool_cmd (lines 281-306): the local
keyring-generation command.  The cluster argument is unused, as in the
source. -/
def generate_ceph_authtool_cmd (cb : String) (cimg : Option String)
    (cluster name secret : String) (caps : Caps) (dest : String) : List String :=
  ceph_bin cb cimg "ceph-authtool"
    ++ ["--create-keyring", dest, "--name", name, "--add-key", secret]
    ++ generate_caps (some "ceph-authtool") caps

/-- Embedding of create_key (lines 309-332).  gen is the secret that
generate_secret would produce when the given secret is falsy.  The ceph
registry command is only appended when import_key is set or the acting
user is not client.admin. -/
def create_key (cb : String) (cimg : Option String) (cluster user ukp name : String)
    (secret : Option String) (gen : String) (caps : Caps) (import_key : Bool)
    (dest : String) : List (List String) :=
  let sec := if strFalsy secret then gen else secret.getD ""
  let args := if user == "client.admin" then ["import", "-i", dest]
              else ["get-or-create", name] ++ generate_caps none caps ++ ["-o", dest]
  [generate_ceph_authtool_cmd cb cimg cluster name sec caps dest]
    ++ (if import_key || user != "client.admin"
        then [generate_cmd cb cimg cluster args user ukp] else [])

/-- Embedding of delete_key (lines 335-350): the single `del` command. -/
def delete_key (cb : String) (cimg : Option String)
    (cluster user ukp name : String) : List (List String) :=
  [generate_cmd cb cimg cluster ["del", name] user ukp]

/-- Prefix test on character lists. -/
def starts_with : List Char → List Char → Bool
  | [], _ => true
  | _ :: _, [] => false
  | p :: ps, c :: cs => p == c && starts_with ps cs

/-- Substring test on character lists (Python `pat in s`). -/
def has_sub (pat : List Char) : List Char → Bool
  | [] => pat.isEmpty
  | c :: rest => starts_with pat (c :: rest) || has_sub pat rest

/-- Python `pat in s` on strings. -/
def strContains (s pat : String) : Bool := has_sub pat.data s.data

/-- os.path.join for the shapes this module produces (the second component
is only absolute when the caller passes an absolute cluster name). -/
def path_join (a b : String) : String :=
  if b.data.head? == some '/' then b
  else if a == "" then b
  else if a.data.getLast? == some '/' then a ++ b
  else a ++ "/" ++ b

/-- Python dict equality on the caps association lists (key set and values
coincide; the lists coming from Python dicts have no duplicate keys). -/
def dict_get (c : Caps) (k : String) : Option String :=
  match c.find? (fun kv => kv.1 == k) with
  | some kv => some kv.2
  | none => none

/-- Boolean Python dict equality used by the line 582 comparison. -/
def dictEq (a b : Caps) : Bool :=
  a.all (fun kv => dict_get b kv.1 == some kv.2)
    && b.all (fun kv => dict_get a kv.1 == some kv.2)

/-- Strip trailing carriage returns and newlines (Python rstrip at lines
687-688). -/
def rstrip_crlf (s : String) : String :=
  String.mk ((s.data.reverse.dropWhile (fun c => c == '\r' || c == '\n')).reverse)

/-- The module parameters of run_module (lines 481-513) that the modelled
states consult. -/
structure Params where
  cluster : String
  name : String
  state : String
  caps : Option Caps
  secret : Option String
  import_key : Bool
  dest : String
  user : String
  user_key : Option String
  output_format : String
  deriving DecidableEq

/-- The injected environment: filesystem probes, container detection, the
external executor (exit code, stdout, stderr per argument vector), the
parse of the `auth get -f json` output (key and caps of the single record,
none when json.loads or the field accesses would raise), and the random
secret that generate_secret would produce in this invocation. -/
structure Sys where
  isdir : String → Bool
  isfile : String → Bool
  containerBinary : String
  containerImage : Option String
  run : List String → Nat × String × String
  parseInfo : String → Option (String × Caps)
  genSecret : String

/-- How the module invocation ends: a module.exit_json with the result rc,
stdout and changed flag; a module.fail_json (from fatal() or from the
non-zero return code epilogue); or an uncaught Python exception. -/
inductive Exit where
  | json (rc : Nat) (stdout : String) (changed : Bool)
  | fail (msg : String)
  | crash (msg : String)
  deriving DecidableEq

/-- Embedding of exec_commands (lines 412-422): run each vector in order,
stopping at the first non-zero exit code; also returns the executed
prefix.  Never applied to an empty list by the module. -/
def exec_run (run : List String → Nat × String × String) :
    List (List String) → List (List String) × Nat × String × String
  | [] => ([], 0, "", "")
  | [c] =>
      let r := run c
      ([c], r.1, r.2.1, r.2.2)
  | c :: c2 :: rest =>
      let r := run c
      if r.1 != 0 then ([c], r.1, r.2.1, r.2.2)
      else
        let t := exec_run run (c2 :: rest)
        (c :: t.1, t.2)

/-- user_key_path resolution (lines 542-547). -/
def the_user_key_path (p : Params) : String :=
  if strFalsy p.user_key
  then path_join "/etc/ceph" (p.cluster ++ "." ++ p.user ++ ".keyring")
  else p.user_key.getD ""

/-- file_path resolution for present/update (lines 549-561): a
non-directory destination is used verbatim; a directory destination
containing "bootstrap" gets `<cluster>.keyring`, any other directory gets
`<cluster>.<name>.keyring`. -/
def resolve_file_path (isdir : String → Bool) (dest cluster name : String) : String :=
  if !isdir dest then dest
  else if strContains dest "bootstrap" then path_join dest (cluster ++ ".keyring")
  else path_join dest (cluster ++ "." ++ name ++ ".keyring")

/-- The resolved keyring file path of an invocation. -/
def the_file_path (p : Params) (sys : Sys) : String :=
  resolve_file_path sys.isdir p.dest p.cluster p.name

/-- The single command built by info_key (lines 373-390), as called at
line 568: `auth get <name> -f <output_format>`. -/
def the_info_cmd (p : Params) (sys : Sys) : List String :=
  generate_cmd sys.containerBinary sys.containerImage p.cluster
    ["get", p.name, "-f", p.output_format] p.user (the_user_key_path p)

/-- The single command built by get_key (lines 353-370), as called at
line 584: `auth get <name> -o <file_path>`. -/
def the_get_cmd (p : Params) (sys : Sys) : List String :=
  generate_cmd sys.containerBinary sys.containerImage p.cluster
    ["get", p.name, "-o", the_file_path p sys] p.user (the_user_key_path p)

/-- The end of run_module (lines 678-695) for paths on which cmd/out/err
were assigned: fail_json on a non-zero rc, else exit_json with the
stripped stdout. -/
def epilogue (rc : Nat) (out err : String) (changed : Bool) : Exit :=
  if rc != 0 then Exit.fail "non-zero return code"
  else Exit.json 0 (rstrip_crlf out) changed

/-- Lines 600-608 followed by the epilogue: build and execute the
create_key command list; on failure exit_json with the cannot-create
message (the result rc field is still its initial 0), on success mark
changed and fall through to the epilogue. -/
def create_step (p : Params) (sys : Sys) (trace0 : List (List String))
    (secret : Option String) (caps : Option Caps) : List (List String) × Exit :=
  let cmds := create_key sys.containerBinary sys.containerImage p.cluster p.user
    (the_user_key_path p) p.name secret sys.genSecret (caps.getD []) p.import_key
    (the_file_path p sys)
  let er := exec_run sys.run cmds
  if er.2.1 != 0 then
    (trace0 ++ er.1, Exit.json 0 ("Couldn\x27t create or update " ++ p.name) false)
  else
    (trace0 ++ er.1, epilogue er.2.1 er.2.2.1 er.2.2.2 true)

/-- Embedding of the present/update branch of run_module (lines 549-608
plus the epilogue), returning the trace of executed commands and the
module exit. -/
def run_present_update (p : Params) (sys : Sys) : List (List String) × Exit :=
  if p.import_key then
    let ic := the_info_cmd p sys
    let r := sys.run ic
    let key_exist := r.1
    if capsFalsy p.caps && (key_exist != 0) then
      ([ic], Exit.fail "Capabilities must be provided when state is \x27present\x27")
    else if (key_exist != 0) && (p.secret == none) && (p.caps == none) then
      ([ic], Exit.fail "Keyring doesn\x27t exist, you must provide \x27secret\x27 and \x27caps\x27")
    else if key_exist == 0 then
      match sys.parseInfo r.2.1 with
      | none => ([ic], Exit.crash "ValueError or KeyError parsing the auth get output")
      | some cur =>
          let secret1 := if strFalsy p.secret then cur.1 else p.secret.getD ""
          let caps1 := if capsFalsy p.caps then cur.2 else p.caps.getD []
          if (secret1 == cur.1) && dictEq caps1 cur.2 then
            if !sys.isfile (the_file_path p sys) then
              let gc := the_get_cmd p sys
              let r2 := sys.run gc
              if r2.1 != 0 then
                ([ic, gc], Exit.json r2.1
                  ("Couldn\x27t fetch the key " ++ p.name ++ " at "
                    ++ the_file_path p sys ++ ".") false)
              else
                ([ic, gc], Exit.json 0
                  (p.name ++ " already exists and doesn\x27t need to be updated.") false)
            else
              ([ic], Exit.json 0
                (p.name ++ " already exists and doesn\x27t need to be updated.") false)
          else
            create_step p sys [ic] (some secret1) (some caps1)
    else
      create_step p sys [ic] p.secret p.caps
  else
    if (sys.isfile (the_file_path p sys) && strFalsy p.secret) || capsFalsy p.caps then
      ([], Exit.json 0
        (p.name ++ " already exists in " ++ p.dest
          ++ " you must provide secret *and* caps when import_key is False") false)
    else
      create_step p sys [] p.secret p.caps

/-- Lines 610-617 followed by the epilogue, with the value of key_exist at
that point as an argument.  When key_exist is 0 the del command runs and
its exit code flows into the epilogue (a non-zero del exit therefore
becomes fail_json "non-zero return code"); otherwise rc is set to 0 but
the locals cmd, out and err were never assigned, so building the final
result dict raises. -/
def absent_branch (p : Params) (sys : Sys) (key_exist : Nat) (ukp : String) :
    List (List String) × Exit :=
  if key_exist == 0 then
    let er := exec_run sys.run
      (delete_key sys.containerBinary sys.containerImage p.cluster p.user ukp p.name)
    (er.1, epilogue er.2.1 er.2.2.1 er.2.2.2 (er.2.1 == 0))
  else
    ([], Exit.crash "UnboundLocalError: cmd")

/-- Embedding of the absent branch of run_module: key_exist still holds
its line 540 initial value 1, because the info_key existence probe at
lines 565-569 only runs for state present/update. -/
def run_absent (p : Params) (sys : Sys) : List (List String) × Exit :=
  let key_exist : Nat := 1
  absent_branch p sys key_exist (the_user_key_path p)

/-- Dispatch of run_module over the modelled states (the list, info,
fetch_initial_keys and generate_secret states are out of the claims'
scope; lookup_ceph_initial_entities models the heart of
fetch_initial_keys separately). -/
def run_module (p : Params) (sys : Sys) : Option (List (List String) × Exit) :=
  if p.state == "present" || p.state == "update" then some (run_present_update p sys)
  else if p.state == "absent" then some (run_absent p sys)
  else none

/-- The header layout asserted by the spec sentence, for comparison with
the source.  Modelled from the spec words: format-version int16,
creation-epoch-seconds int32, reserved int16, key-length int16, all
little-endian — a 10-byte header, unlike the 12-byte one the source
packs. -/
def header_claim (t : Nat) : List Nat :=
  le_bytes 2 1 ++ le_bytes 4 t ++ le_bytes 2 0 ++ le_bytes 2 16

/-- Invocation with state=absent on an entity the registry holds. -/
def pC1 : Params :=
  ⟨"ceph", "client.admin", "absent", none, none, true, "/etc/ceph/",
   "client.admin", none, "json"⟩

/-- Environment in which the entity exists: the executor would answer the
existence probe with exit code 0. -/
def sysC1 : Sys :=
  ⟨fun _ => true, fun _ => true, "docker", none,
   fun _ => (0, "entity exists", ""),
   fun _ => some ("AQkey", [("mon", "allow *")]), "GEN"⟩

/-- Invocation with state=absent on an already-absent entity. -/
def pC3 : Params :=
  ⟨"ceph", "client.test", "absent", none, none, true, "/etc/ceph/",
   "client.admin", none, "json"⟩

/-- Environment in which every external command fails with exit code 1
(e.g. the `del` of an already-absent entity). -/
def sysC3 : Sys :=
  ⟨fun _ => true, fun _ => false, "docker", none,
   fun _ => (1, "", "Error ENOENT"), fun _ => none, "GEN"⟩

/-- present-mode invocation with import disabled, an existing local
keyring file, capabilities given but no secret. -/
def pC4 : Params :=
  ⟨"ceph", "client.admin", "present", some [("mon", "allow *")], none, false,
   "/etc/ceph/ceph.client.admin.keyring", "client.admin", none, "json"⟩

/-- Environment for pC4: dest is a plain file that already exists. -/
def sysC4 : Sys :=
  ⟨fun _ => false, fun _ => true, "docker", none, fun _ => (0, "", ""),
   fun _ => none, "GEN"⟩

/-- present-mode invocation with import disabled, secret and caps both
given, acting user not client.admin. -/
def pC4w : Params :=
  ⟨"ceph", "client.rgw", "present", some [("mon", "allow r")], some "SEC", false,
   "/etc/ceph/", "client.bootstrap-rgw",
   some "/var/lib/ceph/bootstrap-rgw/ceph.keyring", "json"⟩

/-- Environment for pC4w: dest is a directory, no local file yet, every
command succeeds. -/
def sysC4w : Sys :=
  ⟨fun _ => true, fun _ => false, "docker", none, fun _ => (0, "ok", ""),
   fun _ => none, "GEN"⟩

/-- present-mode invocation with import enabled and neither secret nor
caps given (both reused from the cluster). -/
def pC7 : Params :=
  ⟨"ceph", "client.test", "present", none, none, true, "/etc/ceph/",
   "client.admin", none, "json"⟩

/-- Environment for pC7: the entity exists, its parsed key and caps are
KEY and mon:allow *, and the local keyring file is already present. -/
def sysC7 : Sys :=
  ⟨fun _ => true, fun _ => true, "docker", none, fun _ => (0, "INFO", ""),
   fun s => if s == "INFO" then some ("KEY", [("mon", "allow *")]) else none, "GEN"⟩

/-- A registry listing holding 5 of the 7 well-known entities (the two
bootstrap-rbd-mirror and bootstrap-rgw ones are absent) plus unrelated
entities. -/
def recordsC2 : List (List (String × String)) :=
  [[("entity", "client.admin"), ("key", "AQa")],
   [("entity", "client.bootstrap-mds")],
   [("entity", "client.bootstrap-mgr")],
   [("entity", "client.bootstrap-osd")],
   [("entity", "client.bootstrap-rbd")],
   [("entity", "mgr.ceph-mon1")],
   [("entity", "osd.0")]]

/-- The missing-keys fold builds the filter of the well-known list by
non-membership. -/
theorem foldl_missing (ents : List String) :
    ∀ (l : List String) (acc : List String),
      l.foldl (fun acc e => if ents.contains e then acc else acc ++ [e]) acc
        = acc ++ l.filter (fun e => !ents.contains e)
  | [], acc => by simp
  | e :: l, acc => by
      by_cases h : e ∈ ents
      · simp [List.foldl_cons, List.filter_cons, h]
        simpa using foldl_missing ents l acc
      · simp [List.foldl_cons, List.filter_cons, h]
        simpa [List.append_assoc] using foldl_missing ents l (acc ++ [e])

/-- When every command exits 0, exec_commands runs the whole list and
returns exit code 0. -/
theorem exec_run_all_ok (run : List String → Nat × String × String)
    (h : ∀ c, (run c).1 = 0) :
    ∀ cmds, (exec_run run cmds).1 = cmds ∧ (exec_run run cmds).2.1 = 0
  | [] => by simp [exec_run]
  | [c] => by simp [exec_run, h c]
  | c :: c2 :: rest => by
      have ih := exec_run_all_ok run h (c2 :: rest)
      simp [exec_run, h c, ih.1, ih.2]

/-- Length of the base64 encoding: four output characters per started
triple of input bytes. -/
theorem b64encode_length : ∀ bs : List Nat, (b64encode bs).length = (bs.length + 2) / 3 * 4
  | [] => rfl
  | [_] => by simp [b64encode]
  | [_, _] => by simp [b64encode]
  | a :: b :: c :: rest => by
      simp [b64encode, b64encode_length rest]
      omega

/-- C1: with state=absent the module was claimed to issue the del command
exactly when the entity exists and otherwise finish as a NoOp success.
In the source, key_exist keeps its initial value 1 (the info_key existence
probe only runs for state present/update), so the delete branch is
unreachable: no command at all is executed — here with an environment
whose executor reports the entity as existing — and the final result dict
then reads the never-assigned cmd/out/err locals and raises. -/
theorem c1_absent_never_deletes :
    run_module pC1 sysC1 = some ([], Exit.crash "UnboundLocalError: cmd") := by
  decide

/-- C3: deletion was claimed idempotent, a non-zero del exit being
reported as success.  First conjunct: an absent invocation on an
already-absent entity executes nothing and raises (so a second deletion in
sequence reports a failure, not success).  Second conjunct: at the point
where the source would run the del command (key_exist = 0), a non-zero
del exit flows into the final rc and becomes fail_json "non-zero return
code" — the opposite of being treated as success. -/
theorem c3_delete_idempotence_broken :
    run_module pC3 sysC3 = some ([], Exit.crash "UnboundLocalError: cmd")
  ∧ absent_branch pC3 sysC3 0 "/etc/ceph/ceph.client.admin.keyring"
      = ([["ceph", "-n", "client.admin", "-k", "/etc/ceph/ceph.client.admin.keyring",
           "--cluster", "ceph", "auth", "del", "client.test"]],
         Exit.fail "non-zero return code") := by
  decide

/-- C4 counterexample: with import disabled, a local keyring file present,
capabilities given but no secret, the claim says the invocation is a
fatal failure.  The source instead takes the early exit_json with rc 0 —
a reported success, not a failure — and generates nothing. -/
theorem c4_counterexample :
    run_present_update pC4 sysC4
      = ([], Exit.json 0
          ("client.admin already exists in /etc/ceph/ceph.client.admin.keyring you must provide secret *and* caps when import_key is False")
          false) := by
  decide

/-- C4 amended: with import disabled the early rc-0 exit (not a failure)
fires whenever (the local file exists and the secret is falsy) or the
capabilities are falsy — Python operator precedence — and otherwise the
create path runs: always the local ceph-authtool generation command,
plus the get-or-create registry command exactly when the acting user is
not client.admin. -/
theorem c4_import_disabled (p : Params) (sys : Sys)
    (himp : p.import_key = false)
    (hok : ∀ c, (sys.run c).1 = 0) :
    (((sys.isfile (the_file_path p sys) && strFalsy p.secret) || capsFalsy p.caps) = true →
      run_present_update p sys
        = ([], Exit.json 0
            (p.name ++ " already exists in " ++ p.dest
              ++ " you must provide secret *and* caps when import_key is False") false))
  ∧ (((sys.isfile (the_file_path p sys) && strFalsy p.secret) || capsFalsy p.caps) = false →
      (run_present_update p sys).1
        = generate_ceph_authtool_cmd sys.containerBinary sys.containerImage p.cluster p.name
            (if strFalsy p.secret then sys.genSecret else p.secret.getD "")
            (p.caps.getD []) (the_file_path p sys)
          :: (if p.user == "client.admin" then []
              else [generate_cmd sys.containerBinary sys.containerImage p.cluster
                (["get-or-create", p.name] ++ generate_caps none (p.caps.getD [])
                  ++ ["-o", the_file_path p sys]) p.user (the_user_key_path p)])) := by
  constructor
  · intro hcond
    simp [run_present_update, himp, hcond]
  · intro hcond
    have hex := exec_run_all_ok sys.run hok
    have key : ∀ (c : Prop) (inst : Decidable c) (L : List (List String)) (e1 e2 : Exit),
        (@ite _ c inst (L, e1) (L, e2)).1 = L := by
      intro c inst L e1 e2
      split <;> rfl
    simp only [run_present_update, himp, Bool.false_eq_true, if_false, hcond,
      create_step, List.nil_append]
    rw [(hex _).1, create_key]
    simp only [himp, Bool.false_or]
    rw [key]
    simp only [beq_iff_eq]
    by_cases hu : p.user = "client.admin" <;> simp [hu]

/-- C4 witness: a concrete non-admin invocation with import disabled,
secret and caps given and no pre-existing file runs exactly the local
generation command followed by the get-or-create registry command. -/
theorem c4_import_disabled_witness :
    (run_present_update pC4w sysC4w).1
      = [generate_ceph_authtool_cmd "docker" none "ceph" "client.rgw" "SEC"
          [("mon", "allow r")] "/etc/ceph/ceph.client.rgw.keyring",
         generate_cmd "docker" none "ceph"
           (["get-or-create", "client.rgw"] ++ generate_caps none [("mon", "allow r")]
             ++ ["-o", "/etc/ceph/ceph.client.rgw.keyring"]) "client.bootstrap-rgw"
           "/var/lib/ceph/bootstrap-rgw/ceph.keyring"] :=
  ((c4_import_disabled pC4w sysC4w rfl (fun _ => rfl)).2 (by decide)).trans (by decide)

/-- C5 counterexample: the claimed header layout has a 2-byte reserved
field (10-byte header); the source packs "<hiih", whose third field is an
int32, so the generated secret differs from the claimed encoding even
with identical field values: here at time 0 with an all-zero 16-byte
random body. -/
theorem c5_counterexample :
    generate_secret 0 (List.replicate 16 0)
      ≠ b64encode (header_claim 0 ++ List.replicate 16 0) := by
  decide

/-- C5 amended: the secret is the base64 encoding of the header int16
format-version 1, int32 epoch seconds, int32 reserved zero and int16
key-length — a 12-byte header — followed by the 16 random bytes, the
key-length field holding 16; the encoded output is 40 characters. -/
theorem c5_secret_layout (t : Nat) (key : List Nat) (h : key.length = 16) :
    generate_secret t key
      = b64encode (le_bytes 2 1 ++ le_bytes 4 t ++ le_bytes 4 0 ++ le_bytes 2 16 ++ key)
  ∧ (le_bytes 2 1 ++ le_bytes 4 t ++ le_bytes 4 0 ++ le_bytes 2 16).length = 12
  ∧ le_bytes 2 16 = [16, 0]
  ∧ (generate_secret t key).length = 40 := by
  refine ⟨?_, ?_, by decide, ?_⟩
  · simp [generate_secret, struct_pack_hiih, h, List.append_assoc]
  · simp [le_bytes]
  · have hlen : (struct_pack_hiih 1 t 0 key.length ++ key).length = 28 := by
      simp [struct_pack_hiih, le_bytes, h]
    show (b64encode _).length = 40
    rw [b64encode_length, hlen]

/-- C5 witness: the layout theorem applied at time 0 with a concrete
16-byte random body. -/
theorem c5_secret_layout_witness :
    (generate_secret 0 (List.replicate 16 0)).length = 40 :=
  (c5_secret_layout 0 (List.replicate 16 0) (by decide)).2.2.2

/-- C6: in create_key the commands after the leading ceph-authtool one
are the registry command: for acting user client.admin it is
`import -i <dest>` (present only when import_key is set), for any other
acting user it is `get-or-create <name> <caps...> -o <dest>`; the head is
always the local generation command with the resolved secret. -/
theorem c6_registry_subop (cb cluster user ukp name gen dest : String)
    (cimg : Option String) (secret : Option String) (caps : Caps) (import_key : Bool) :
    (user = "client.admin" →
      (create_key cb cimg cluster user ukp name secret gen caps import_key dest).drop 1
        = if import_key then [generate_cmd cb cimg cluster ["import", "-i", dest] user ukp]
          else [])
  ∧ (user ≠ "client.admin" →
      (create_key cb cimg cluster user ukp name secret gen caps import_key dest).drop 1
        = [generate_cmd cb cimg cluster
            (["get-or-create", name] ++ generate_caps none caps ++ ["-o", dest]) user ukp])
  ∧ (create_key cb cimg cluster user ukp name secret gen caps import_key dest).take 1
      = [generate_ceph_authtool_cmd cb cimg cluster name
          (if strFalsy secret then gen else secret.getD "") caps dest] := by
  refine ⟨?_, ?_, ?_⟩
  · intro h
    cases import_key <;> simp [create_key, h]
  · intro h
    simp [create_key, h]
  · cases hu : (user == "client.admin") <;> cases import_key <;> simp [create_key, hu]

/-- C6 witness: a concrete non-admin create with import enabled issues
get-or-create. -/
theorem c6_registry_subop_witness :
    (create_key "docker" none "ceph" "client.bootstrap-rgw"
        "/var/lib/ceph/bootstrap-rgw/ceph.keyring" "client.test" none "GEN"
        [("mon", "allow r")] true "/etc/ceph/k").drop 1
      = [generate_cmd "docker" none "ceph"
          (["get-or-create", "client.test"] ++ generate_caps none [("mon", "allow r")]
            ++ ["-o", "/etc/ceph/k"]) "client.bootstrap-rgw"
          "/var/lib/ceph/bootstrap-rgw/ceph.keyring"] :=
  (c6_registry_subop "docker" "ceph" "client.bootstrap-rgw"
    "/var/lib/ceph/bootstrap-rgw/ceph.keyring" "client.test" "GEN" "/etc/ceph/k"
    none none [("mon", "allow r")] true).2.1 (by decide)

/-- C7: with import enabled, an existing entity (info probe exits 0) and a
resolved desired secret and capability set equal to the current ones
(reuse of current values when unspecified included), the run issues only
the info probe — plus one `auth get` fetch of the local copy when the
keyring file is missing — and exits through the NoOp path: no
ceph-authtool generation and no import/get-or-create registry command
appears in the trace, and the Update path is never taken. -/
theorem c7_noop_on_match (p : Params) (sys : Sys) (ck : String) (cc : Caps)
    (himp : p.import_key = true)
    (hrc : (sys.run (the_info_cmd p sys)).1 = 0)
    (hparse : sys.parseInfo (sys.run (the_info_cmd p sys)).2.1 = some (ck, cc))
    (hsec : (if strFalsy p.secret then ck else p.secret.getD "") = ck)
    (hcaps : dictEq (if capsFalsy p.caps then cc else p.caps.getD []) cc = true) :
    (sys.isfile (the_file_path p sys) = true →
      run_present_update p sys
        = ([the_info_cmd p sys],
           Exit.json 0 (p.name ++ " already exists and doesn\x27t need to be updated.")
             false))
  ∧ (sys.isfile (the_file_path p sys) = false →
      (run_present_update p sys).1 = [the_info_cmd p sys, the_get_cmd p sys]
      ∧ ((run_present_update p sys).2
          = Exit.json 0 (p.name ++ " already exists and doesn\x27t need to be updated.")
              false
        ∨ (run_present_update p sys).2
          = Exit.json (sys.run (the_get_cmd p sys)).1
              ("Couldn\x27t fetch the key " ++ p.name ++ " at "
                ++ the_file_path p sys ++ ".") false)) := by
  constructor
  · intro hfile
    simp [run_present_update, himp, hrc, hparse, hsec, hcaps, hfile]
  · intro hfile
    by_cases h2 : (sys.run (the_get_cmd p sys)).1 = 0
    · constructor
      · simp [run_present_update, himp, hrc, hparse, hsec, hcaps, hfile, h2]
      · left
        simp [run_present_update, himp, hrc, hparse, hsec, hcaps, hfile, h2]
    · constructor
      · simp [run_present_update, himp, hrc, hparse, hsec, hcaps, hfile, h2]
      · right
        simp [run_present_update, himp, hrc, hparse, hsec, hcaps, hfile, h2]

/-- C7 witness: concrete reuse invocation (no secret, no caps supplied),
entity existing with key KEY and caps mon:allow *, local file present:
only the info probe runs and the module exits NoOp. -/
theorem c7_noop_on_match_witness :
    run_present_update pC7 sysC7
      = ([the_info_cmd pC7 sysC7],
         Exit.json 0 "client.test already exists and doesn\x27t need to be updated."
           false) :=
  ((c7_noop_on_match pC7 sysC7 "KEY" [("mon", "allow *")] rfl rfl (by decide)
    (by decide) (by decide)).1 rfl).trans (by decide)

/-- C8 counterexample: the flattening is claimed to be sorted by subsystem
name, which would make it agree on the two insertion orders of the same
two-entry map; the source emits map iteration order, so the two orders
disagree and the osd-first map is emitted unsorted. -/
theorem c8_counterexample :
    generate_caps none [("osd", "a"), ("mon", "b")] = ["osd", "a", "mon", "b"]
  ∧ generate_caps none [("mon", "b"), ("osd", "a")] = ["mon", "b", "osd", "a"]
  ∧ generate_caps none [("osd", "a"), ("mon", "b")]
      ≠ generate_caps none [("mon", "b"), ("osd", "a")] := by
  decide

/-- C8 amended: the flattening emits, in the map iteration (insertion)
order — not sorted — one flag/key/value block per pair, where pairs with
an empty-string subsystem key are silently dropped and the "--cap" flag
is inserted only in ceph-authtool mode. -/
theorem c8_flatten_order (t : Option String) (caps : Caps) :
    generate_caps t caps
      = List.join ((caps.filter (fun kv => !(kv.1.length == 0))).map
          (fun kv => (if t == some "ceph-authtool" then ["--cap"] else [])
            ++ [kv.1, kv.2])) := by
  have gen : ∀ (cs : Caps) (acc : List String),
      cs.foldl (fun acc kv =>
        if kv.1.length == 0 then acc
        else acc ++ (if t == some "ceph-authtool" then ["--cap"] else [])
          ++ [kv.1, kv.2]) acc
      = acc ++ List.join ((cs.filter (fun kv => !(kv.1.length == 0))).map
          (fun kv => (if t == some "ceph-authtool" then ["--cap"] else [])
            ++ [kv.1, kv.2])) := by
    intro cs
    induction cs with
    | nil => intro acc; simp
    | cons kv rest ih =>
        intro acc
        by_cases h : kv.1.length = 0
        · have h2 := ih acc
          simp [List.foldl_cons, List.filter_cons, h, List.append_assoc] at h2 ⊢
          exact h2
        · have h2 := ih (acc ++ ((if t == some "ceph-authtool" then ["--cap"] else [])
            ++ [kv.1, kv.2]))
          simp [List.foldl_cons, List.filter_cons, h, List.append_assoc] at h2 ⊢
          exact h2
  simpa [generate_caps] using gen caps []

/-- C9: keyring-path resolution for present/update: a non-directory
destination is used verbatim; a directory destination containing
"bootstrap" yields `<cluster>.keyring` independently of the entity; any
other directory yields `<cluster>.<entity>.keyring`; and the concrete
example /etc/ceph/ + ceph + client.admin resolves to
/etc/ceph/ceph.client.admin.keyring. -/
theorem c9_path_resolution (isdir : String → Bool) (dest cluster name : String) :
    (isdir dest = false → resolve_file_path isdir dest cluster name = dest)
  ∧ (isdir dest = true → strContains dest "bootstrap" = true →
      resolve_file_path isdir dest cluster name
        = path_join dest (cluster ++ ".keyring"))
  ∧ (isdir dest = true → strContains dest "bootstrap" = false →
      resolve_file_path isdir dest cluster name
        = path_join dest (cluster ++ "." ++ name ++ ".keyring"))
  ∧ (∀ n2, isdir dest = true → strContains dest "bootstrap" = true →
      resolve_file_path isdir dest cluster name
        = resolve_file_path isdir dest cluster n2)
  ∧ resolve_file_path (fun d => d == "/etc/ceph/") "/etc/ceph/" "ceph" "client.admin"
      = "/etc/ceph/ceph.client.admin.keyring" := by
  refine ⟨?_, ?_, ?_, ?_, by decide⟩
  · intro h
    simp [resolve_file_path, h]
  · intro h hb
    simp [resolve_file_path, h, hb]
  · intro h hb
    simp [resolve_file_path, h, hb]
  · intro n2 h hb
    simp [resolve_file_path, h, hb]

/-- C9 witness: a bootstrap directory destination yields the
entity-independent `<cluster>.keyring` filename. -/
theorem c9_path_resolution_witness :
    resolve_file_path (fun _ => true) "/var/lib/ceph/bootstrap-rgw/" "ceph"
        "client.bootstrap-rgw"
      = path_join "/var/lib/ceph/bootstrap-rgw/" ("ceph" ++ ".keyring") :=
  (c9_path_resolution (fun _ => true) "/var/lib/ceph/bootstrap-rgw/" "ceph"
    "client.bootstrap-rgw").2.1 rfl (by decide)

/-- C2: when the listing matches fewer than the 7 well-known entities and
CEPH_ROLLING_UPDATE is unset, the initial-key lookup fails with a message
naming exactly the well-known entities missing from the matched list (the
built missing list is precisely the filter of CEPH_INITIAL_KEYS by
non-membership); with the override set to "true" the partial matched list
is returned instead. -/
theorem c2_incomplete_bootstrap (records : List (List (String × String)))
    (h : (entities_of records).length < 7) :
    lookup_ceph_initial_entities none (AuthOut.dump records)
      = Except.error ("initial keyring does not contain keys: "
          ++ String.intercalate " " (missing_of (entities_of records)))
  ∧ lookup_ceph_initial_entities (some "true") (AuthOut.dump records)
      = Except.ok (entities_of records)
  ∧ missing_of (entities_of records)
      = CEPH_INITIAL_KEYS.filter (fun e => !(entities_of records).contains e) := by
  have hlen : ((entities_of records).length != CEPH_INITIAL_KEYS.length) = true := by
    have h7 : CEPH_INITIAL_KEYS.length = 7 := rfl
    rw [h7]
    simp only [bne_iff_ne, ne_eq]
    omega
  have hoff : str_to_bool (env_pyval none) = Except.ok false := rfl
  have hon : str_to_bool (env_pyval (some "true")) = Except.ok true := rfl
  refine ⟨?_, ?_, ?_⟩
  · simp [lookup_ceph_initial_entities, hlen, hoff]
  · simp [lookup_ceph_initial_entities, hlen, hon]
  · simpa [missing_of] using foldl_missing (entities_of records) CEPH_INITIAL_KEYS []

/-- C2 witness: with 5 of the 7 well-known entities listed, the lookup
fails naming exactly the 2 absent ones, and succeeds with the partial
5-element list when the override is set. -/
theorem c2_incomplete_bootstrap_witness :
    lookup_ceph_initial_entities none (AuthOut.dump recordsC2)
      = Except.error
          "initial keyring does not contain keys: client.bootstrap-rbd-mirror client.bootstrap-rgw"
  ∧ lookup_ceph_initial_entities (some "true") (AuthOut.dump recordsC2)
      = Except.ok ["client.admin", "client.bootstrap-mds", "client.bootstrap-mgr",
                   "client.bootstrap-osd", "client.bootstrap-rbd"] :=
  ⟨((c2_incomplete_bootstrap recordsC2 (by decide)).1).trans
      (congrArg Except.error (by decide)),
   ((c2_incomplete_bootstrap recordsC2 (by decide)).2.1).trans
      (congrArg Except.ok (by decide))⟩

/-- C10: str_to_bool returns true exactly on lower-cased form "true",
false exactly on "false" (the Python booleans being accepted through the
str() fallback), and raises ValueError on every other value such as "1",
"yes" or the empty string; consequently an override variable holding such
a value aborts the bootstrap-set check with that ValueError rather than
being read as enabled or disabled. -/
theorem c10_str_to_bool :
    (∀ v : PyVal, str_to_bool v = Except.ok true ↔ py_lower v = "true")
  ∧ (∀ v : PyVal, str_to_bool v = Except.ok false ↔ py_lower v = "false")
  ∧ (∀ v : PyVal, py_lower v ≠ "true" → py_lower v ≠ "false" →
      str_to_bool v = Except.error ("Invalid input value: " ++ py_lower v))
  ∧ str_to_bool PyVal.boolT = Except.ok true
  ∧ str_to_bool PyVal.boolF = Except.ok false
  ∧ str_to_bool (PyVal.str "1") = Except.error "Invalid input value: 1"
  ∧ str_to_bool (PyVal.str "yes") = Except.error "Invalid input value: yes"
  ∧ str_to_bool (PyVal.str "") = Except.error "Invalid input value: "
  ∧ (∀ records : List (List (String × String)),
      (entities_of records).length ≠ 7 →
      lookup_ceph_initial_entities (some "1") (AuthOut.dump records)
        = Except.error "Invalid input value: 1") := by
  refine ⟨?_, ?_, ?_, rfl, rfl, rfl, rfl, rfl, ?_⟩
  · intro v
    by_cases h : py_lower v = "true"
    · simp [str_to_bool, h]
    · by_cases h2 : py_lower v = "false" <;> simp [str_to_bool, h, h2]
  · intro v
    by_cases h : py_lower v = "true"
    · simp [str_to_bool, h]
    · by_cases h2 : py_lower v = "false" <;> simp [str_to_bool, h, h2]
  · intro v h h2
    simp [str_to_bool, h, h2]
  · intro records h
    have hlen : ((entities_of records).length != CEPH_INITIAL_KEYS.length) = true := by
      have h7 : CEPH_INITIAL_KEYS.length = 7 := rfl
      rw [h7]
      simpa [bne_iff_ne] using h
    have hbad : str_to_bool (env_pyval (some "1"))
        = Except.error "Invalid input value: 1" := rfl
    simp [lookup_ceph_initial_entities, hlen, hbad]

/-- C10 witness: an empty listing (0 matched entities) with the override
set to "1" aborts with the ValueError message. -/
theorem c10_str_to_bool_witness :
    lookup_ceph_initial_entities (some "1") (AuthOut.dump [])
      = Except.error "Invalid input value: 1" :=
  c10_str_to_bool.2.2.2.2.2.2.2.2 [] (by decide)

/-- C8 witness: a concrete three-entry map with one empty-string key, in
ceph-authtool mode: the empty-keyed pair is dropped and the rest emitted
in insertion order with the "--cap" flags. -/
theorem c8_flatten_order_witness :
    generate_caps (some "ceph-authtool")
        [("mon", "allow *"), ("", "dropped"), ("osd", "allow rwx")]
      = ["--cap", "mon", "allow *", "--cap", "osd", "allow rwx"] :=
  (c8_flatten_order (some "ceph-authtool")
    [("mon", "allow *"), ("", "dropped"), ("osd", "allow rwx")]).trans (by decide)
